import Mathlib

set_option linter.unusedVariables false

/-!
Shallow embedding of `src/saferequests/saferequests.py` (package saferequests).

The module wraps HTTP verb calls with a retry loop.  We embed:

* the configuration stored on a `SafeRequests` / `SafeSession` instance
  (constructor, lines 122-140 and 495-518) as `Policy`;
* the attempt loop of `SafeRequests.request` (lines 675-713) as `requestLoop`,
  driven by a transport oracle giving the outcome of each call to
  `requests.request` (line 680);
* `SafeSession.request` (lines 256-307), whose prologue reads the local
  `url_str` before any assignment to it;
* the per-verb convenience methods of both classes and the module level free
  functions (lines 310-427, 715-841, 846-1041);
* `paramstodict` (lines 31-48) and `mergesettings` (lines 50-66) over an
  insertion-ordered association-list model of Python dicts.

Two facts about the source shape the embedding and are recorded here once:

1. Both `except` clauses (line 280 and line 686) read the bare name
   `retry_exception_codes`.  That name is neither a local of the enclosing
   method nor a module level global (the instance attribute is only reachable
   as `self.retry_exception_codes`), so the moment the transport raises, the
   evaluation of the `except` clause itself raises `NameError`, carrying the
   transport error only as implicit context.  The `timed_out` branches
   (lines 287-293 and 693-699) are consequently unreachable, and the stored
   `retry_exception` / `retry_exception_codes` settings are never consulted
   by the loop.

2. Line 844 executes `SafeRequests.root = SafeRequests()`, binding a class
   attribute; no top level statement of the module binds a name `root`, yet
   the free function `request` (line 910) returns `root.request(...)`, so the
   lookup of the bare global `root` fails with `NameError`.
-/

namespace Saferequests

/-- A transport level HTTP response as produced by the `requests`
collaborator: the status code plus an abstract payload identifying the
concrete response object. -/
structure Response where
  status_code : Int
  payload : Nat
deriving DecidableEq, Repr

/-- Outcome of one call to the transport collaborator `requests.request`
(line 680) / `requests.sessions.Session.request` (line 275): either a
response, or a raised transport exception identified by a code. -/
inductive Outcome where
  | ok (r : Response)
  | exc (e : Nat)
deriving DecidableEq, Repr

/-- Python exceptions that the embedded code itself can raise. -/
inductive PyErr where
  /-- Reading a local variable that has no prior assignment in its scope. -/
  | unboundLocal (name : String)
  /-- Reading an unbound global name; `context` is the exception that was in
  flight when the failing lookup happened (Python chains it as context). -/
  | nameError (name : String) (context : Option Nat)
  /-- Subscripting a dict with a missing key. -/
  | keyError (key : String)
  /-- Accessing a missing attribute (for example `.items` on `None`). -/
  | attributeError (attr : String)
deriving DecidableEq, Repr

/-- How a call to a `request` method ends. -/
inductive ReqResult where
  /-- `return response` (line 307 / line 713). -/
  | returned (r : Response)
  /-- An exception propagated out of the call. -/
  | raised (e : PyErr)
  /-- The `while count >= 0` loop was never entered (negative retry limit),
  so the Python function falls off its end and returns `None`. -/
  | noneReturned
deriving DecidableEq, Repr

/-- Observable trace of one `request` call: its result, the number of
transport calls issued, and the durations passed to `time.sleep`. -/
structure RunTrace where
  result : ReqResult
  calls : Nat
  sleeps : List Int
deriving DecidableEq, Repr

/-- The retry configuration stored by the constructors of `SafeSession`
(lines 122-140) and `SafeRequests` (lines 495-518).  Delays are modelled as
integers (the defaults and every value in the claims are integral).
`retry_exception_codes` holds the identifiers of the exception classes the
instance was configured with; due to the bare-name `except` clause the loop
never actually reads it (see the module comment). -/
structure Policy where
  retry_delay : Int
  retry_limit : Int
  retry_codes : List Int
  exp_backoff : Bool
  max_exp_backoff : Int
  retry_exception : Bool
  retry_exception_codes : List Nat
deriving DecidableEq, Repr

/-- `DEFAULT_CODES = [429] + list(range(500,512))` (line 14). -/
def DEFAULT_CODES : List Int := 429 :: (List.range 12).map (fun i => 500 + (i : Int))

/-- Identifier for `requests.exceptions.ConnectionError` in the model. -/
def connectionErrorId : Nat := 0

/-- Identifier for `requests.exceptions.Timeout` in the model. -/
def timeoutId : Nat := 1

/-- `DEFAULT_EXCEPTIONS` (lines 10-11). -/
def DEFAULT_EXCEPTIONS : List Nat := [connectionErrorId, timeoutId]

/-- The all-default configuration (lines 12-16 with the constructor
defaults of lines 495-508). -/
def defaultPolicy : Policy :=
  { retry_delay := 1
    retry_limit := 10
    retry_codes := DEFAULT_CODES
    exp_backoff := false
    max_exp_backoff := 60
    retry_exception := false
    retry_exception_codes := DEFAULT_EXCEPTIONS }

/-- The attempt loop shared by `SafeRequests.request` (lines 675-713) and
`SafeSession.request` (lines 271-307); the two bodies are identical in every
modelled respect.  One recursive step is one iteration of
`while count >= 0`:

* `count` is the Python `count` (it starts at the retry limit and is only
  decremented on the retry path, after being tested, so inside the loop it is
  a natural number);
* `attempt` counts transport calls already issued;
* `delay` is the current `retry_delay` local;
* `sleeps` accumulates the durations passed to `time.sleep` (line 298 /
  line 704).

If the transport raises, the `except retry_exception_codes` clause (line 280 /
line 686) evaluates an unbound name and the iteration raises `NameError`
(module comment, fact 1).  If the transport returns, the loop retries exactly
when `response.status_code in self.retry_codes and count` holds (line 294 /
line 700): it decrements `count`, sleeps for `delay`, and doubles the delay up
to `max_exp_backoff` when `exp_backoff` is set (lines 297-300 / 703-706);
otherwise it stamps the elapsed time and returns the response (lines 302-307 /
708-713). -/
def requestLoop (p : Policy) (t : Nat → Outcome) :
    Nat → Nat → Int → List Int → RunTrace
  | 0, attempt, _delay, sleeps =>
    match t attempt with
    | .exc e =>
      { result := .raised (.nameError "retry_exception_codes" (some e))
        calls := attempt + 1, sleeps := sleeps }
    | .ok r => { result := .returned r, calls := attempt + 1, sleeps := sleeps }
  | c + 1, attempt, delay, sleeps =>
    match t attempt with
    | .exc e =>
      { result := .raised (.nameError "retry_exception_codes" (some e))
        calls := attempt + 1, sleeps := sleeps }
    | .ok r =>
      if r.status_code ∈ p.retry_codes then
        requestLoop p t c (attempt + 1)
          (if p.exp_backoff then min (delay * 2) p.max_exp_backoff else delay)
          (sleeps ++ [delay])
      else { result := .returned r, calls := attempt + 1, sleeps := sleeps }

/-- `SafeRequests.request` (lines 587-713), modelled at the level of its
attempt loop.  The prologue (lines 653-674) merges the persistent settings
into `kwargs` via `mergesettings` (modelled separately below) and builds a
display `url_str`; neither affects the loop control, the transport call
count, or the returned response, so the merged call is abstracted into the
transport oracle `t`, indexed by the method string passed through to
`requests.request` (line 680) and by the attempt number.  When
`retry_limit < 0` the `while count >= 0` loop (line 675) never runs and the
Python function returns `None`. -/
def SafeRequests.request (p : Policy) (method : String)
    (t : String → Nat → Outcome) : RunTrace :=
  if p.retry_limit < 0 then { result := .noneReturned, calls := 0, sleeps := [] }
  else requestLoop p (t method) p.retry_limit.toNat 0 p.retry_delay []

/-! ## Python dicts and the settings merger -/

/-- A Python dict with string keys and scalar-or-None values, modelled as an
insertion-ordered association list whose entries have pairwise distinct keys
(every dict built by the embedded code keeps that invariant).  A value of
`none` models Python `None`. -/
abbrev PyDict := List (String × Option Int)

/-- First-match lookup: `some v` when the key is present bound to `v`,
`none` when the key is absent. -/
def dictLookup (k : String) : PyDict → Option (Option Int)
  | [] => none
  | kv :: rest => if kv.1 = k then some kv.2 else dictLookup k rest

/-- Python `k in d`. -/
def dictHasKey (k : String) : PyDict → Bool
  | [] => false
  | kv :: rest => kv.1 = k || dictHasKey k rest

/-- Python `d[k] = v`: replace the value in place when the key is present
(keeping its position), append the new entry otherwise. -/
def dictSet (d : PyDict) (k : String) (v : Option Int) : PyDict :=
  if dictHasKey k d then d.map (fun kv => if kv.1 = k then (k, v) else kv)
  else d ++ [(k, v)]

/-- Python `d.update(e)`: assign every entry of `e` into `d`, in order. -/
def dictUpdate (d e : PyDict) : PyDict :=
  e.foldl (fun a kv => dictSet a kv.1 kv.2) d

/-- The shapes of a `params` value accepted by `paramstodict` (lines 31-48):
a dict or a list of key/value pairs.  The `str`/`bytes` branch (lines 36-48,
built on `parse_qs`) is not exercised by any claim and is outside the
embedding. -/
inductive Params where
  | dict (d : PyDict)
  | pairs (l : List (String × Option Int))
deriving DecidableEq, Repr

/-- Python falsiness of a params value: empty dict and empty list are falsy. -/
def Params.isFalsy : Params → Bool
  | .dict d => d.isEmpty
  | .pairs l => l.isEmpty

/-- The raw entries of a params value, in order. -/
def Params.entries : Params → PyDict
  | .dict d => d
  | .pairs l => l

/-- `paramstodict` (lines 31-48): `dict(params)` copies a dict unchanged;
`{v[0]: v[1] for v in params}` builds a dict from a pair list in order,
later pairs overriding earlier ones. -/
def paramstodict : Params → PyDict
  | .dict d => d
  | .pairs l => l.foldl (fun a kv => dictSet a kv.1 kv.2) []

/-- Case-insensitive assignment, modelling one `CaseInsensitiveDict` store:
a key matches up to ASCII case, and a hit keeps its position but takes the
new spelling and value, as `requests.structures.CaseInsensitiveDict` does. -/
def ciSet (d : PyDict) (k : String) (v : Option Int) : PyDict :=
  if d.any (fun kv => kv.1.toLower = k.toLower) then
    d.map (fun kv => if kv.1.toLower = k.toLower then (k, v) else kv)
  else d ++ [(k, v)]

/-- Building `CaseInsensitiveDict(entries)` then `.update(entries2)`:
assign all entries case-insensitively, in order. -/
def ciUpdate (d : PyDict) (e : PyDict) : PyDict :=
  e.foldl (fun a kv => ciSet a kv.1 kv.2) d

/-- The three `setting_type` strings `mergesettings` is called with
(lines 657-663): `'params'`, `'headers'`, `'auth'`. -/
inductive SettingType where
  | auth
  | headers
  | params
deriving DecidableEq, Repr

/-- `mergesettings` (lines 50-66).  A falsy persistent setting returns the
per-call setting unchanged (line 51-52); a falsy per-call setting returns the
persistent one (line 53-54); `auth` returns the per-call value outright
(lines 55-56); `headers` merge through a `CaseInsensitiveDict` seeded with
the persistent entries and updated with the per-call entries (lines 57-59);
`params` merge by converting both sides with `paramstodict` and updating the
persistent dict with the per-call one (lines 60-62).  The merged dict then
drops every entry whose value is `None` (line 64). -/
def mergesettings (request_setting persistant_setting : Params)
    (setting_type : SettingType) : Params :=
  if persistant_setting.isFalsy then request_setting
  else if request_setting.isFalsy then persistant_setting
  else
    match setting_type with
    | .auth => request_setting
    | .headers =>
      let merged_settings := ciUpdate (ciUpdate [] persistant_setting.entries)
        request_setting.entries
      .dict (merged_settings.filter (fun kv => kv.2.isSome))
    | .params =>
      let merged_settings := dictUpdate (paramstodict persistant_setting)
        (paramstodict request_setting)
      .dict (merged_settings.filter (fun kv => kv.2.isSome))

/-! ## SafeSession -/

/-- Reading a Python local variable: the slot is `none` when no assignment
to the name precedes the read in its scope, in which case the read raises
`UnboundLocalError`. -/
def readLocal (slot : Option String) (name : String) : Except PyErr String :=
  match slot with
  | some s => .ok s
  | none => .error (.unboundLocal name)

/-- The keyword arguments of a call: keyword name to value; a value of
`none` models an explicit Python `None`. -/
abbrev Kwargs := List (String × Option Params)

/-- Python `kwargs[k]`: `none` when the key is missing (a `KeyError`). -/
def kwLookup (kwargs : Kwargs) (k : String) : Option (Option Params) :=
  match kwargs with
  | [] => none
  | kv :: rest => if kv.1 = k then some kv.2 else kwLookup rest k

/-- Rendering of a scalar params value inside the f-string `f'{k}={v}'`
(line 264-266). -/
def pyValStr : Option Int → String
  | some n => toString n
  | none => "None"

/-- The display query string built by lines 261-267: `'&'.join(joiner)`
over `f'{k}={v}'` pieces (list values are not modelled; the dict values in
scope here are scalars). -/
def joinParams (d : PyDict) : String :=
  String.intercalate "&" (d.map (fun kv => kv.1 ++ "=" ++ pyValStr kv.2))

/-- `SafeSession.request` (lines 192-307).  After binding `count` and
`retry_delay` (lines 257-258), line 259 runs
`url_str += '&' if '?' in url_str else '?'`, whose right hand side reads the
local `url_str`; the augmented assignments at lines 259 and 267 make
`url_str` a local of the method, and no assignment to it precedes line 259
on any path, so the read raises `UnboundLocalError` on every invocation.
The rest of the body is kept for fidelity: line 261 subscripts
`kwargs['params']` unconditionally and calls `.items()` on it, lines 261-267
build the display string, and lines 271-307 are the same attempt loop as in
`SafeRequests.request` (driven by `super().request`, line 275). -/
def SafeSession.request (p : Policy) (method url : String) (kwargs : Kwargs)
    (t : String → Nat → Outcome) : RunTrace :=
  let _count := p.retry_limit
  let _retry_delay := p.retry_delay
  match readLocal none "url_str" with
  | .error e => { result := .raised e, calls := 0, sleeps := [] }
  | .ok url_str0 =>
    let url_str1 := url_str0 ++ (if url_str0.contains '?' then "&" else "?")
    match kwLookup kwargs "params" with
    | none => { result := .raised (.keyError "params"), calls := 0, sleeps := [] }
    | some none =>
      { result := .raised (.attributeError "items"), calls := 0, sleeps := [] }
    | some (some (.pairs _)) =>
      { result := .raised (.attributeError "items"), calls := 0, sleeps := [] }
    | some (some (.dict d)) =>
      let _url_str := url_str1 ++ joinParams d
      if p.retry_limit < 0 then
        { result := .noneReturned, calls := 0, sleeps := [] }
      else requestLoop p (t method) p.retry_limit.toNat 0 p.retry_delay []

/-- `SafeSession.get` (line 325): `self.request("get", url, params=params,
**kwargs)`. -/
def SafeSession.get (p : Policy) (url : String) (params : Option Params)
    (kwargs : Kwargs) (t : String → Nat → Outcome) : RunTrace :=
  SafeSession.request p "get" url (("params", params) :: kwargs) t

/-- `SafeSession.options` (line 340). -/
def SafeSession.options (p : Policy) (url : String) (kwargs : Kwargs)
    (t : String → Nat → Outcome) : RunTrace :=
  SafeSession.request p "options" url kwargs t

/-- `SafeSession.head` (line 355): the body literally dispatches
`self.request("options", url, **kwargs)`. -/
def SafeSession.head (p : Policy) (url : String) (kwargs : Kwargs)
    (t : String → Nat → Outcome) : RunTrace :=
  SafeSession.request p "options" url kwargs t

/-- `SafeSession.post` (line 374). -/
def SafeSession.post (p : Policy) (url : String) (data json : Option Params)
    (kwargs : Kwargs) (t : String → Nat → Outcome) : RunTrace :=
  SafeSession.request p "post" url (("data", data) :: ("json", json) :: kwargs) t

/-- `SafeSession.put` (line 393). -/
def SafeSession.put (p : Policy) (url : String) (data : Option Params)
    (kwargs : Kwargs) (t : String → Nat → Outcome) : RunTrace :=
  SafeSession.request p "put" url (("data", data) :: kwargs) t

/-- `SafeSession.patch` (line 412). -/
def SafeSession.patch (p : Policy) (url : String) (data : Option Params)
    (kwargs : Kwargs) (t : String → Nat → Outcome) : RunTrace :=
  SafeSession.request p "patch" url (("data", data) :: kwargs) t

/-- `SafeSession.delete` (line 427). -/
def SafeSession.delete (p : Policy) (url : String) (kwargs : Kwargs)
    (t : String → Nat → Outcome) : RunTrace :=
  SafeSession.request p "delete" url kwargs t

/-! ## SafeRequests verb methods (lines 715-841) -/

/-- `SafeRequests.get` (line 731). -/
def SafeRequests.get (p : Policy) (t : String → Nat → Outcome) : RunTrace :=
  SafeRequests.request p "get" t

/-- `SafeRequests.options` (line 747). -/
def SafeRequests.options (p : Policy) (t : String → Nat → Outcome) : RunTrace :=
  SafeRequests.request p "options" t

/-- `SafeRequests.head` (line 765): the body literally dispatches
`self.request("options", url, **kwargs)`. -/
def SafeRequests.head (p : Policy) (t : String → Nat → Outcome) : RunTrace :=
  SafeRequests.request p "options" t

/-- `SafeRequests.post` (line 785). -/
def SafeRequests.post (p : Policy) (t : String → Nat → Outcome) : RunTrace :=
  SafeRequests.request p "post" t

/-- `SafeRequests.put` (line 805). -/
def SafeRequests.put (p : Policy) (t : String → Nat → Outcome) : RunTrace :=
  SafeRequests.request p "put" t

/-- `SafeRequests.patch` (line 825). -/
def SafeRequests.patch (p : Policy) (t : String → Nat → Outcome) : RunTrace :=
  SafeRequests.request p "patch" t

/-- `SafeRequests.delete` (line 841). -/
def SafeRequests.delete (p : Policy) (t : String → Nat → Outcome) : RunTrace :=
  SafeRequests.request p "delete" t

/-! ## Module level default client and free functions (lines 844-1041) -/

/-- Line 844: `SafeRequests.root = SafeRequests()` stores a default-configured
instance as a class attribute. -/
def SafeRequests.root : Policy := defaultPolicy

/-- The names bound at the top level of the module, in source order: the
imports (lines 1-8), the constants (lines 10-16), `__all__` (line 19), the
two helper functions (lines 31, 50), the two classes (lines 71, 429) and the
free functions (lines 846-1041).  Line 844 assigns to an attribute of the
already-bound `SafeRequests`, binding no new module level name; in
particular no top level statement binds a name `root`. -/
def moduleTopLevelNames : List String :=
  ["requests", "time", "List", "Union", "Tuple", "logging", "datetime",
   "timedelta", "Mapping", "CaseInsensitiveDict", "parse_qs", "urlparse",
   "DEFAULT_EXCEPTIONS", "DEFAULT_DELAY", "DEFAULT_LIMIT", "DEFAULT_CODES",
   "DEFAULT_EXP_BACKOFF", "DEFAULT_MAX_EXP_BACKOFF", "__all__",
   "paramstodict", "mergesettings", "SafeSession", "SafeRequests",
   "request", "get", "options", "head", "post", "put", "patch", "delete"]

/-- The free function `request` (lines 846-910): its body is
`return root.request(method=method, url=url, **kwargs)`.  The bare name
`root` is resolved as a module level global; were it bound to the default
client it would dispatch to `SafeRequests.root`, but it is not among the
module bindings, so the lookup raises `NameError` before any dispatch. -/
def request (method : String) (t : String → Nat → Outcome) : RunTrace :=
  if "root" ∈ moduleTopLevelNames then SafeRequests.request SafeRequests.root method t
  else { result := .raised (.nameError "root" none), calls := 0, sleeps := [] }

/-- Free `get` (line 929): `return request('get', url, params=params, **kwargs)`. -/
def get (t : String → Nat → Outcome) : RunTrace := request "get" t

/-- Free `options` (line 946). -/
def options (t : String → Nat → Outcome) : RunTrace := request "options" t

/-- Free `head` (line 962): unlike the class methods, the free function
passes the method string `'head'`. -/
def head (t : String → Nat → Outcome) : RunTrace := request "head" t

/-- Free `post` (line 983). -/
def post (t : String → Nat → Outcome) : RunTrace := request "post" t

/-- Free `put` (line 1004). -/
def put (t : String → Nat → Outcome) : RunTrace := request "put" t

/-- Free `patch` (line 1024). -/
def patch (t : String → Nat → Outcome) : RunTrace := request "patch" t

/-- Free `delete` (line 1041). -/
def delete (t : String → Nat → Outcome) : RunTrace := request "delete" t

/-! ## Loop lemmas -/

/-- The successive durations the loop hands to `time.sleep` when every
attempt is retried, starting from the current `delay`, for `n` retries:
the sleep happens before the delay update (lines 704-706). -/
def backoffDelays (p : Policy) (delay : Int) : Nat → List Int
  | 0 => []
  | n + 1 =>
    delay :: backoffDelays p
      (if p.exp_backoff then min (delay * 2) p.max_exp_backoff else delay) n

/-- When every transport outcome is a response with a retry-eligible status
code, the loop consumes its whole retry budget: it makes `count + 1` further
calls after `attempt` earlier ones and returns the response of the last
call, having slept `backoffDelays` between attempts. -/
theorem requestLoop_all_retryable (p : Policy) (t : Nat → Outcome)
    (h : ∀ i, ∃ r, t i = .ok r ∧ r.status_code ∈ p.retry_codes) :
    ∀ (count attempt : Nat) (delay : Int) (sleeps : List Int) (r : Response),
      t (attempt + count) = .ok r →
      requestLoop p t count attempt delay sleeps =
        { result := .returned r, calls := attempt + count + 1
          sleeps := sleeps ++ backoffDelays p delay count } := by
  intro count
  induction count with
  | zero =>
    intro attempt delay sleeps r hr
    rw [Nat.add_zero] at hr
    simp [requestLoop, backoffDelays, hr]
  | succ c ih =>
    intro attempt delay sleeps r hr
    obtain ⟨r0, hr0, hmem⟩ := h attempt
    rw [Nat.add_succ, ← Nat.succ_add] at hr
    have step := ih (attempt + 1)
      (if p.exp_backoff then min (delay * 2) p.max_exp_backoff else delay)
      (sleeps ++ [delay]) r hr
    simp only [requestLoop, hr0]
    rw [if_pos hmem, step]
    simp only [backoffDelays, RunTrace.mk.injEq, List.append_assoc,
      List.singleton_append, and_true, true_and]
    omega

/-- If the very first transport call raises, the `except` clause evaluates
the unbound name `retry_exception_codes` and the whole call raises
`NameError` after exactly one transport call, for every configuration whose
loop runs at all. -/
theorem request_first_attempt_exc (p : Policy) (method : String)
    (t : String → Nat → Outcome) (e : Nat) (hlim : 0 ≤ p.retry_limit)
    (h0 : t method 0 = .exc e) :
    SafeRequests.request p method t =
      { result := .raised (.nameError "retry_exception_codes" (some e))
        calls := 1, sleeps := [] } := by
  unfold SafeRequests.request
  rw [if_neg (by omega)]
  cases hc : p.retry_limit.toNat with
  | zero => simp [requestLoop, h0]
  | succ c => simp [requestLoop, h0]

/-- The loop never produces the fell-off-the-end `None` result: it either
returns a response or raises. -/
theorem requestLoop_result_not_none (p : Policy) (t : Nat → Outcome) :
    ∀ (count attempt : Nat) (delay : Int) (sleeps : List Int),
      (∃ r, (requestLoop p t count attempt delay sleeps).result = .returned r) ∨
      (∃ e, (requestLoop p t count attempt delay sleeps).result = .raised e) := by
  intro count
  induction count with
  | zero =>
    intro attempt delay sleeps
    cases ht : t attempt with
    | ok r => exact Or.inl ⟨r, by simp [requestLoop, ht]⟩
    | exc e =>
      exact Or.inr ⟨.nameError "retry_exception_codes" (some e), by simp [requestLoop, ht]⟩
  | succ c ih =>
    intro attempt delay sleeps
    cases ht : t attempt with
    | exc e =>
      exact Or.inr ⟨.nameError "retry_exception_codes" (some e), by simp [requestLoop, ht]⟩
    | ok r =>
      by_cases hmem : r.status_code ∈ p.retry_codes
      · have := ih (attempt + 1)
          (if p.exp_backoff then min (delay * 2) p.max_exp_backoff else delay)
          (sleeps ++ [delay])
        simpa [requestLoop, ht, hmem] using this
      · exact Or.inl ⟨r, by simp [requestLoop, ht, hmem]⟩

/-! ## C1 -/

/-- C1: for every retry limit `N >= 0`, if every transport call returns a
response whose status code is in the configured retry codes, then
`SafeRequests.request` issues exactly `N + 1` transport calls (the first
attempt plus `N` retries) and returns the final response, not an error. -/
theorem request_retry_eligible_always_makes_limit_plus_one_calls
    (p : Policy) (method : String) (t : String → Nat → Outcome) (N : Nat)
    (hN : p.retry_limit = (N : Int))
    (h : ∀ i, ∃ r, t method i = .ok r ∧ r.status_code ∈ p.retry_codes) :
    (SafeRequests.request p method t).calls = N + 1 ∧
    ∃ r, t method N = .ok r ∧
      (SafeRequests.request p method t).result = .returned r := by
  obtain ⟨r, hr, hmem⟩ := h N
  have main := requestLoop_all_retryable p (t method) h N 0 p.retry_delay [] r
    (by rw [Nat.zero_add]; exact hr)
  unfold SafeRequests.request
  rw [if_neg (by omega), show p.retry_limit.toNat = N by omega, main]
  exact ⟨by simp, r, hr, by simp⟩

def c1Policy : Policy := { defaultPolicy with retry_limit := 2, retry_codes := [429] }

def c1Transport : String → Nat → Outcome := fun _ _ => .ok ⟨429, 0⟩

/-- Witness for C1 at `retry_limit = 2` and a target that always answers
429: three transport calls, and the third response is returned. -/
theorem request_retry_eligible_always_makes_limit_plus_one_calls_witness :
    (SafeRequests.request c1Policy "get" c1Transport).calls = 3 ∧
    ∃ r, c1Transport "get" 2 = .ok r ∧
      (SafeRequests.request c1Policy "get" c1Transport).result = .returned r :=
  request_retry_eligible_always_makes_limit_plus_one_calls c1Policy "get"
    c1Transport 2 (by decide) (fun _ => ⟨⟨429, 0⟩, rfl, by decide⟩)

/-! ## C9 -/

/-- C9: a first response whose status code is not in the configured retry
codes is returned as the successful result of the first attempt, with no
retry, no sleep and no error, whatever the status code is. -/
theorem non_retry_code_returned_first_attempt
    (p : Policy) (method : String) (t : String → Nat → Outcome) (r : Response)
    (hlim : 0 ≤ p.retry_limit) (h0 : t method 0 = .ok r)
    (hnot : r.status_code ∉ p.retry_codes) :
    SafeRequests.request p method t =
      { result := .returned r, calls := 1, sleeps := [] } := by
  unfold SafeRequests.request
  rw [if_neg (by omega)]
  cases hc : p.retry_limit.toNat with
  | zero => simp [requestLoop, h0]
  | succ c => simp [requestLoop, h0, hnot]

def c9Transport : String → Nat → Outcome := fun _ _ => .ok ⟨404, 0⟩

/-- Witness for C9: under the default policy a 404 response comes back on
the first attempt as a normal result. -/
theorem non_retry_code_returned_first_attempt_witness :
    SafeRequests.request defaultPolicy "get" c9Transport =
      { result := .returned ⟨404, 0⟩, calls := 1, sleeps := [] } :=
  non_retry_code_returned_first_attempt defaultPolicy "get" c9Transport
    ⟨404, 0⟩ (by decide) rfl (by decide)

/-! ## C10 -/

def c10Policy : Policy := { defaultPolicy with retry_limit := -1 }

def c10Transport : String → Nat → Outcome := fun _ _ => .ok ⟨200, 0⟩

/-- C10 counterexample: with `retry_limit = -1` the `while count >= 0` loop
is never entered, so `SafeRequests.request` falls off the end of the
function and returns Python `None`, not a response and not an error —
against the claim that no combination of constructor arguments yields a
null result. -/
theorem request_negative_limit_returns_none :
    (SafeRequests.request c10Policy "get" c10Transport).result = .noneReturned := by
  decide

/-- C10 amended: for every nonnegative `retry_limit`, a terminating call to
`SafeRequests.request` either returns a response or raises an error, never
the null result. -/
theorem request_nonneg_limit_returns_or_raises
    (p : Policy) (method : String) (t : String → Nat → Outcome)
    (h : 0 ≤ p.retry_limit) :
    (∃ r, (SafeRequests.request p method t).result = .returned r) ∨
    (∃ e, (SafeRequests.request p method t).result = .raised e) := by
  unfold SafeRequests.request
  rw [if_neg (by omega)]
  exact requestLoop_result_not_none p (t method) p.retry_limit.toNat 0 p.retry_delay []

/-- Witness for the amended C10 at the default policy. -/
theorem request_nonneg_limit_returns_or_raises_witness :
    (∃ r, (SafeRequests.request defaultPolicy "get" c10Transport).result = .returned r) ∨
    (∃ e, (SafeRequests.request defaultPolicy "get" c10Transport).result = .raised e) :=
  request_nonneg_limit_returns_or_raises defaultPolicy "get" c10Transport (by decide)

/-! ## C2 -/

def c2Policy : Policy := { defaultPolicy with retry_exception := true, retry_limit := 3 }

def c2Transport : String → Nat → Outcome := fun _ _ => .exc 5

/-- C2: contradicted by the code.  With `retry_exception = true` and a
transport that always raises a retryable error, the claim expects
`retry_limit + 1` attempts followed by the transport error; instead the
`except retry_exception_codes` clause (line 686) evaluates an unbound name,
so the very first transport error aborts the call with `NameError` after
exactly one attempt, for every configuration. -/
theorem request_retryable_exception_raises_nameerror_after_one_attempt :
    SafeRequests.request c2Policy "get" c2Transport =
      { result := .raised (.nameError "retry_exception_codes" (some 5))
        calls := 1, sleeps := [] } ∧
    (∀ (p : Policy) (method : String) (t : String → Nat → Outcome) (e : Nat),
      p.retry_exception = true → 0 ≤ p.retry_limit → t method 0 = .exc e →
      SafeRequests.request p method t =
        { result := .raised (.nameError "retry_exception_codes" (some e))
          calls := 1, sleeps := [] }) :=
  ⟨by decide, fun p method t e _ hlim h0 => request_first_attempt_exc p method t e hlim h0⟩

/-- Witness for C2 discharging the hypotheses at a concrete input. -/
theorem request_retryable_exception_raises_nameerror_after_one_attempt_witness :
    SafeRequests.request c2Policy "head" c2Transport =
      { result := .raised (.nameError "retry_exception_codes" (some 5))
        calls := 1, sleeps := [] } :=
  request_retryable_exception_raises_nameerror_after_one_attempt.2 c2Policy "head"
    c2Transport 5 rfl (by decide) rfl

/-! ## C3 -/

def c3Transport : String → Nat → Outcome := fun _ _ => .exc 7

/-- C3: contradicted by the code.  With the default
`retry_exception = false`, a transport error does terminate the call right
after the first attempt, but what propagates is not the transport error
unchanged: evaluating the `except retry_exception_codes` clause (line 686)
raises `NameError` (the transport error surviving only as implicit
context), so the intended `raise e` at line 691 is never reached. -/
theorem request_transport_error_raises_nameerror_not_original :
    SafeRequests.request defaultPolicy "get" c3Transport =
      { result := .raised (.nameError "retry_exception_codes" (some 7))
        calls := 1, sleeps := [] } ∧
    (∀ (p : Policy) (method : String) (t : String → Nat → Outcome) (e : Nat),
      p.retry_exception = false → 0 ≤ p.retry_limit → t method 0 = .exc e →
      SafeRequests.request p method t =
        { result := .raised (.nameError "retry_exception_codes" (some e))
          calls := 1, sleeps := [] }) :=
  ⟨by decide, fun p method t e _ hlim h0 => request_first_attempt_exc p method t e hlim h0⟩

/-- Witness for C3 discharging the hypotheses at a concrete input. -/
theorem request_transport_error_raises_nameerror_not_original_witness :
    SafeRequests.request defaultPolicy "delete" c3Transport =
      { result := .raised (.nameError "retry_exception_codes" (some 7))
        calls := 1, sleeps := [] } :=
  request_transport_error_raises_nameerror_not_original.2 defaultPolicy "delete"
    c3Transport 7 rfl (by decide) rfl

/-! ## C4 -/

/-- The trace of every `SafeSession` call: `UnboundLocalError` on `url_str`
with zero transport calls. -/
def unboundUrlStrTrace : RunTrace :=
  { result := .raised (.unboundLocal "url_str"), calls := 0, sleeps := [] }

/-- C4: every invocation of `SafeSession.request` — for all methods, URLs
and keyword arguments, and hence every `SafeSession` verb method — raises
before any transport call is issued: line 259 reads the local `url_str`
before it is ever assigned (and line 261 reads `kwargs['params']`
unconditionally), so the Session variant never sends a request. -/
theorem safeSession_request_raises_unboundlocal_before_transport
    (p : Policy) (method url : String) (kwargs : Kwargs)
    (params data json : Option Params) (t : String → Nat → Outcome) :
    SafeSession.request p method url kwargs t = unboundUrlStrTrace ∧
    SafeSession.get p url params kwargs t = unboundUrlStrTrace ∧
    SafeSession.options p url kwargs t = unboundUrlStrTrace ∧
    SafeSession.head p url kwargs t = unboundUrlStrTrace ∧
    SafeSession.post p url data json kwargs t = unboundUrlStrTrace ∧
    SafeSession.put p url data kwargs t = unboundUrlStrTrace ∧
    SafeSession.patch p url data kwargs t = unboundUrlStrTrace ∧
    SafeSession.delete p url kwargs t = unboundUrlStrTrace :=
  ⟨rfl, rfl, rfl, rfl, rfl, rfl, rfl, rfl⟩

/-! ## C5 -/

def okTransport : String → Nat → Outcome := fun _ _ => .ok ⟨200, 0⟩

/-- The trace of every module level free verb call: `NameError` on the bare
global `root`, with zero transport calls and no dispatch. -/
def nameErrorRootTrace : RunTrace :=
  { result := .raised (.nameError "root" none), calls := 0, sleeps := [] }

/-- C5: contradicted by the code.  The free functions are documented to
dispatch through the default client `SafeRequests.root` (line 844), but the
free `request` (line 910) reads the bare module global `root`, which no top
level statement binds, so every free verb call raises `NameError` before
any dispatch and never returns the default instance response. -/
theorem free_functions_raise_nameerror_root :
    (∀ (method : String) (t : String → Nat → Outcome),
      request method t = nameErrorRootTrace) ∧
    get okTransport = nameErrorRootTrace ∧
    options okTransport = nameErrorRootTrace ∧
    head okTransport = nameErrorRootTrace ∧
    post okTransport = nameErrorRootTrace ∧
    put okTransport = nameErrorRootTrace ∧
    patch okTransport = nameErrorRootTrace ∧
    delete okTransport = nameErrorRootTrace := by
  have h : ∀ (method : String) (t : String → Nat → Outcome),
      request method t = nameErrorRootTrace := by
    intro method t
    unfold request
    rw [if_neg (by decide)]
    rfl
  exact ⟨h, h "get" okTransport, h "options" okTransport, h "head" okTransport,
    h "post" okTransport, h "put" okTransport, h "patch" okTransport,
    h "delete" okTransport⟩

/-! ## C6 -/

def c6Policy : Policy := { defaultPolicy with retry_limit := 0, retry_codes := [] }

/-- A transport that answers 418 to an OPTIONS dispatch and 200 to
everything else, so the dispatched method string is observable. -/
def c6Transport : String → Nat → Outcome :=
  fun method _ => if method = "options" then .ok ⟨418, 1⟩ else .ok ⟨200, 0⟩

/-- C6: contradicted by the code.  In both classes the `head` convenience
method forwards `"options"`, not `"head"`: `SafeRequests.head` (line 765)
and `SafeSession.head` (line 355) both run `self.request("options", ...)`.
Observably, against `c6Transport`, `SafeRequests.head` returns the response
served to OPTIONS, while a genuine `"head"` dispatch returns a different
one. -/
theorem head_methods_dispatch_options_not_head :
    (SafeRequests.head c6Policy c6Transport).result = .returned ⟨418, 1⟩ ∧
    (SafeRequests.request c6Policy "head" c6Transport).result = .returned ⟨200, 0⟩ ∧
    (∀ (p : Policy) (t : String → Nat → Outcome),
      SafeRequests.head p t = SafeRequests.request p "options" t) ∧
    (∀ (p : Policy) (url : String) (kwargs : Kwargs) (t : String → Nat → Outcome),
      SafeSession.head p url kwargs t = SafeSession.request p "options" url kwargs t) :=
  ⟨by decide, by decide, fun _ _ => rfl, fun _ _ _ _ => rfl⟩

/-! ## C7 -/

/-- Doubling with a nonnegative cap commutes with first capping the
operand. -/
theorem min_double_cap (a M : Int) (hM : 0 ≤ M) :
    min (min a M * 2) M = min (a * 2) M := by
  rcases le_total a M with h | h
  · rw [min_eq_left h]
  · rw [min_eq_right h, min_eq_right (by omega), min_eq_right (by omega)]

/-- Closed form of the delay sequence under `exp_backoff` with ceiling 10:
starting from `min (2 ^ k) 10`, the successive delays are
`min (2 ^ (k + j)) 10`. -/
theorem backoffDelays_formula (p : Policy) (hb : p.exp_backoff = true)
    (hm : p.max_exp_backoff = 10) :
    ∀ (n k : Nat),
      backoffDelays p (min ((2 : Int) ^ k) 10) n =
        (List.range n).map (fun j => min ((2 : Int) ^ (k + j)) 10) := by
  intro n
  induction n with
  | zero => intro k; simp [backoffDelays]
  | succ m ih =>
    intro k
    rw [List.range_succ_eq_map]
    simp only [List.map_cons, List.map_map, backoffDelays]
    rw [if_pos hb, hm]
    rw [min_double_cap ((2 : Int) ^ k) 10 (by omega), ← pow_succ, ih (k + 1)]
    congr 1
    apply List.map_congr_left
    intro j _
    have hjk : k + 1 + j = k + (j + 1) := by omega
    rw [hjk]
    rfl

/-- Element access in the mapped range list. -/
theorem getD_map_range (f : Nat → Int) (N i : Nat) (hi : i < N) :
    (((List.range N).map f).getD i 0) = f i := by
  rw [List.getD_eq_getElem?_getD, List.getElem?_map, List.getElem?_range hi]
  rfl

/-- C7: with `exp_backoff = true`, `retry_delay = 1` and
`max_exp_backoff = 10`, the successive sleep durations of a run that
retries `N` times are `min (2 ^ k) 10` for `k = 0, 1, ...` — that is
`1, 2, 4, 8, 10, 10, ...` — each next sleep is
`min (previous * 2, max_exp_backoff)` and no sleep exceeds the ceiling. -/
theorem exp_backoff_sleep_sequence
    (p : Policy) (method : String) (t : String → Nat → Outcome) (N : Nat)
    (hd : p.retry_delay = 1) (hb : p.exp_backoff = true)
    (hm : p.max_exp_backoff = 10) (hN : p.retry_limit = (N : Int))
    (h : ∀ i, ∃ r, t method i = .ok r ∧ r.status_code ∈ p.retry_codes) :
    (SafeRequests.request p method t).sleeps =
      (List.range N).map (fun k => min ((2 : Int) ^ k) 10) ∧
    (∀ d ∈ (SafeRequests.request p method t).sleeps, d ≤ 10) ∧
    (∀ k, k + 1 < N →
      (SafeRequests.request p method t).sleeps.getD (k + 1) 0 =
        min ((SafeRequests.request p method t).sleeps.getD k 0 * 2) 10) := by
  obtain ⟨r, hr, hmem⟩ := h N
  have main := requestLoop_all_retryable p (t method) h N 0 p.retry_delay [] r
    (by rw [Nat.zero_add]; exact hr)
  have hsleeps : (SafeRequests.request p method t).sleeps =
      (List.range N).map (fun k => min ((2 : Int) ^ k) 10) := by
    unfold SafeRequests.request
    rw [if_neg (by omega), show p.retry_limit.toNat = N by omega, main]
    show [] ++ backoffDelays p p.retry_delay N = _
    rw [List.nil_append, hd, show (1 : Int) = min ((2 : Int) ^ 0) 10 by decide,
      backoffDelays_formula p hb hm N 0]
    simp
  refine ⟨hsleeps, ?_, ?_⟩
  · intro d hdm
    rw [hsleeps] at hdm
    simp only [List.mem_map] at hdm
    obtain ⟨j, _, rfl⟩ := hdm
    exact min_le_right _ _
  · intro k hk
    rw [hsleeps, getD_map_range _ N (k + 1) hk, getD_map_range _ N k (by omega)]
    rw [min_double_cap ((2 : Int) ^ k) 10 (by omega), ← pow_succ]

def c7Policy : Policy :=
  { defaultPolicy with
      retry_limit := 6
      retry_codes := [429]
      exp_backoff := true
      max_exp_backoff := 10 }

def c7Transport : String → Nat → Outcome := fun _ _ => .ok ⟨429, 0⟩

/-- Witness for C7: six retries sleep exactly 1, 2, 4, 8, 10, 10 seconds. -/
theorem exp_backoff_sleep_sequence_witness :
    (SafeRequests.request c7Policy "get" c7Transport).sleeps =
      [1, 2, 4, 8, 10, 10] := by
  have h := exp_backoff_sleep_sequence c7Policy "get" c7Transport 6
    rfl rfl rfl (by decide) (fun _ => ⟨⟨429, 0⟩, rfl, by decide⟩)
  rw [h.1]
  decide

/-! ## C8: dict lemmas -/

/-- The keys of a dict, in order. -/
def dictKeys (d : PyDict) : List String := d.map Prod.fst

theorem dictKeys_nil : dictKeys [] = [] := rfl

theorem dictKeys_cons (kv : String × Option Int) (rest : PyDict) :
    dictKeys (kv :: rest) = kv.1 :: dictKeys rest := rfl

/-- A key that is in no entry looks up to nothing. -/
theorem dictLookup_eq_none_of_not_mem (k : String) :
    ∀ d : PyDict, k ∉ dictKeys d → dictLookup k d = none := by
  intro d
  induction d with
  | nil => intro _; rfl
  | cons kv rest ih =>
    intro hk
    rw [dictKeys_cons, List.mem_cons] at hk
    push_neg at hk
    rw [dictLookup, if_neg (fun h => hk.1 h.symm), ih hk.2]

/-- `dictHasKey` is membership in the keys. -/
theorem dictHasKey_eq_true_iff (k : String) :
    ∀ d : PyDict, dictHasKey k d = true ↔ k ∈ dictKeys d := by
  intro d
  induction d with
  | nil => simp [dictHasKey, dictKeys_nil]
  | cons kv rest ih =>
    rw [dictKeys_cons, dictHasKey]
    simp only [List.mem_cons, Bool.or_eq_true, decide_eq_true_eq, ih]
    constructor
    · rintro (h | h)
      · exact Or.inl h.symm
      · exact Or.inr h
    · rintro (h | h)
      · exact Or.inl h.symm
      · exact Or.inr h

/-- Assigning a key makes it look up to the assigned value: replacement
case. -/
theorem dictLookup_replace_self (k : String) (v : Option Int) :
    ∀ d : PyDict, dictHasKey k d = true →
      dictLookup k (d.map (fun kv => if kv.1 = k then (k, v) else kv)) = some v := by
  intro d
  induction d with
  | nil => intro h; cases h
  | cons kv rest ih =>
    intro h
    by_cases hk : kv.1 = k
    · simp only [List.map_cons, if_pos hk]
      rw [dictLookup, if_pos rfl]
    · rw [dictHasKey, Bool.or_eq_true, decide_eq_true_eq] at h
      rcases h with h | h
      · exact absurd h hk
      · simp only [List.map_cons, if_neg hk]
        rw [dictLookup, if_neg hk, ih h]

/-- Assigning a key makes it look up to the assigned value: append case. -/
theorem dictLookup_append_self (k : String) (v : Option Int) :
    ∀ d : PyDict, dictHasKey k d = false → dictLookup k (d ++ [(k, v)]) = some v := by
  intro d
  induction d with
  | nil => intro _; rw [List.nil_append, dictLookup, if_pos rfl]
  | cons kv rest ih =>
    intro h
    rw [dictHasKey, Bool.or_eq_false_iff, decide_eq_false_iff_not] at h
    rw [List.cons_append, dictLookup, if_neg h.1, ih h.2]

/-- `d[k] = v` then lookup of `k` gives `v`. -/
theorem dictLookup_dictSet_self (d : PyDict) (k : String) (v : Option Int) :
    dictLookup k (dictSet d k v) = some v := by
  unfold dictSet
  by_cases h : dictHasKey k d = true
  · rw [if_pos h]
    exact dictLookup_replace_self k v d h
  · rw [if_neg h]
    exact dictLookup_append_self k v d (by simpa using h)

/-- Replacement of key `k` leaves lookups of other keys alone. -/
theorem dictLookup_replace_ne (k k' : String) (v : Option Int) (hne : k' ≠ k) :
    ∀ d : PyDict,
      dictLookup k' (d.map (fun kv => if kv.1 = k then (k, v) else kv)) =
        dictLookup k' d := by
  intro d
  induction d with
  | nil => rfl
  | cons kv rest ih =>
    by_cases hk : kv.1 = k
    · have h1 : k ≠ k' := fun h => hne h.symm
      have h2 : kv.1 ≠ k' := by rw [hk]; exact h1
      simp only [List.map_cons, if_pos hk]
      rw [dictLookup, if_neg h1, dictLookup, if_neg h2, ih]
    · simp only [List.map_cons, if_neg hk]
      rw [dictLookup, dictLookup, ih]

/-- Appending an entry for key `k` leaves lookups of other keys alone. -/
theorem dictLookup_append_ne (k k' : String) (v : Option Int) (hne : k' ≠ k) :
    ∀ d : PyDict, dictLookup k' (d ++ [(k, v)]) = dictLookup k' d := by
  intro d
  induction d with
  | nil =>
    simp only [List.nil_append, dictLookup]
    rw [if_neg (fun h => hne h.symm)]
  | cons kv rest ih => rw [List.cons_append, dictLookup, dictLookup, ih]

/-- `d[k] = v` leaves lookups of other keys alone. -/
theorem dictLookup_dictSet_ne (d : PyDict) (k k' : String) (v : Option Int)
    (hne : k' ≠ k) : dictLookup k' (dictSet d k v) = dictLookup k' d := by
  unfold dictSet
  by_cases h : dictHasKey k d = true
  · rw [if_pos h, dictLookup_replace_ne k k' v hne]
  · rw [if_neg h, dictLookup_append_ne k k' v hne]

/-- `dictSet` on a present key keeps the key list unchanged. -/
theorem dictKeys_dictSet_mem (d : PyDict) (k : String) (v : Option Int)
    (h : dictHasKey k d = true) : dictKeys (dictSet d k v) = dictKeys d := by
  unfold dictSet
  rw [if_pos h]
  unfold dictKeys
  rw [List.map_map]
  apply List.map_congr_left
  intro kv _
  by_cases hk : kv.1 = k
  · simp [Function.comp, if_pos hk, hk]
  · simp [Function.comp, if_neg hk]

/-- `dictSet` on a fresh key appends it to the key list. -/
theorem dictKeys_dictSet_not_mem (d : PyDict) (k : String) (v : Option Int)
    (h : dictHasKey k d = false) : dictKeys (dictSet d k v) = dictKeys d ++ [k] := by
  unfold dictSet
  rw [if_neg (by simp [h])]
  unfold dictKeys
  rw [List.map_append]
  rfl

/-- `dictSet` preserves distinctness of keys. -/
theorem nodup_dictKeys_dictSet (d : PyDict) (k : String) (v : Option Int)
    (h : (dictKeys d).Nodup) : (dictKeys (dictSet d k v)).Nodup := by
  by_cases hk : dictHasKey k d = true
  · rw [dictKeys_dictSet_mem d k v hk]; exact h
  · rw [dictKeys_dictSet_not_mem d k v (by simpa using hk)]
    have hknot : k ∉ dictKeys d := fun hmem =>
      hk ((dictHasKey_eq_true_iff k d).mpr hmem)
    simp [List.nodup_append, h, hknot]

/-- `dictUpdate` preserves distinctness of keys. -/
theorem nodup_dictKeys_dictUpdate :
    ∀ (e d : PyDict), (dictKeys d).Nodup → (dictKeys (dictUpdate d e)).Nodup := by
  intro e
  induction e with
  | nil => intro d h; exact h
  | cons kv rest ih =>
    intro d h
    exact ih (dictSet d kv.1 kv.2) (nodup_dictKeys_dictSet d kv.1 kv.2 h)

/-- Lookup through `d.update(e)` when the keys of `e` are distinct:
a binding in `e` wins, otherwise the binding of `d` shows through. -/
theorem dictLookup_dictUpdate (k : String) :
    ∀ (e d : PyDict), (dictKeys e).Nodup →
      dictLookup k (dictUpdate d e) =
        ((dictLookup k e).rec (dictLookup k d) (fun v => some v) :
          Option (Option Int)) := by
  intro e
  induction e with
  | nil => intro d _; rfl
  | cons kv rest ih =>
    intro d hnd
    rw [dictKeys_cons] at hnd
    obtain ⟨hnotin, hnd'⟩ := List.nodup_cons.mp hnd
    have hstep : dictUpdate d (kv :: rest) = dictUpdate (dictSet d kv.1 kv.2) rest := rfl
    rw [hstep, ih (dictSet d kv.1 kv.2) hnd']
    by_cases hk : kv.1 = k
    · have hkn : dictLookup k rest = none := by
        apply dictLookup_eq_none_of_not_mem
        rw [← hk]; exact hnotin
      rw [hkn, dictLookup, if_pos hk, ← hk, dictLookup_dictSet_self]
    · rw [dictLookup, if_neg hk]
      cases hrest : dictLookup k rest with
      | some v => rfl
      | none =>
        rw [dictLookup_dictSet_ne d kv.1 k kv.2 (fun h => hk h.symm)]

/-- A lookup that misses stays a miss after filtering. -/
theorem dictLookup_filter_of_none (k : String) (q : String × Option Int → Bool) :
    ∀ d : PyDict, dictLookup k d = none → dictLookup k (d.filter q) = none := by
  intro d
  induction d with
  | nil => intro _; rfl
  | cons kv rest ih =>
    intro h
    by_cases hk : kv.1 = k
    · rw [dictLookup, if_pos hk] at h
      cases h
    · rw [dictLookup, if_neg hk] at h
      rw [List.filter_cons]
      by_cases hq : q kv = true
      · rw [if_pos hq, dictLookup, if_neg hk]
        exact ih h
      · rw [if_neg hq]
        exact ih h

/-- Lookup through the None-dropping filter, for distinct keys: a present
non-None binding survives, a present None binding disappears. -/
theorem dictLookup_filter_isSome (k : String) :
    ∀ d : PyDict, (dictKeys d).Nodup →
      dictLookup k (d.filter (fun kv => kv.2.isSome)) =
        match dictLookup k d with
        | some (some n) => some (some n)
        | _ => none := by
  intro d
  induction d with
  | nil => intro _; rfl
  | cons kv rest ih =>
    intro hnd
    rw [dictKeys_cons] at hnd
    obtain ⟨hnotin, hnd'⟩ := List.nodup_cons.mp hnd
    by_cases hk : kv.1 = k
    · rw [dictLookup, if_pos hk]
      cases hv : kv.2 with
      | some n =>
        rw [List.filter_cons, if_pos (by rw [hv]; rfl), dictLookup, if_pos hk, hv]
      | none =>
        rw [List.filter_cons, if_neg (by rw [hv]; exact Bool.false_ne_true)]
        have hkn : dictLookup k rest = none := by
          apply dictLookup_eq_none_of_not_mem
          rw [← hk]; exact hnotin
        exact dictLookup_filter_of_none k _ rest hkn
    · rw [dictLookup, if_neg hk, List.filter_cons]
      by_cases hq : kv.2.isSome = true
      · rw [if_pos hq, dictLookup, if_neg hk, ih hnd']
      · rw [if_neg hq, ih hnd']

/-! ## C8 -/

/-- The merged-lookup relation the claim describes, written from the claim
text for comparison with `mergesettings`: per-call precedence on key
collision, entries whose value is None dropped. -/
def claimMergedLookup (r pp : PyDict) (k : String) : Option (Option Int) :=
  match dictLookup k r with
  | some (some n) => some (some n)
  | some none => none
  | none =>
    match dictLookup k pp with
    | some (some n) => some (some n)
    | _ => none

/-- C8: merging query parameters.  The concrete example: per-call `{a: 1}`
with persistent `{a: 2, b: 3}` yields `{a: 1, b: 3}`.  Fast paths: an empty
or absent side returns the other unchanged.  Merge path: no entry of the
merged mapping has value None, and lookups in the merged mapping follow
per-call precedence with None-dropping. -/
theorem mergesettings_params_spec :
    (mergesettings (.dict [("a", some 1)]) (.dict [("a", some 2), ("b", some 3)])
      .params = .dict [("a", some 1), ("b", some 3)]) ∧
    (∀ r : Params, mergesettings r (.dict []) .params = r) ∧
    (∀ r : Params, mergesettings r (.pairs []) .params = r) ∧
    (∀ pp : Params, pp.isFalsy = false → mergesettings (.dict []) pp .params = pp) ∧
    (∀ r pp : Params, r.isFalsy = false → pp.isFalsy = false →
      ∀ kv ∈ (mergesettings r pp .params).entries, kv.2 ≠ none) ∧
    (∀ r pp : PyDict, r ≠ [] → pp ≠ [] →
      (dictKeys r).Nodup → (dictKeys pp).Nodup → ∀ k,
      dictLookup k (mergesettings (.dict r) (.dict pp) .params).entries =
        claimMergedLookup r pp k) := by
  refine ⟨by decide, fun r => rfl, fun r => rfl, ?_, ?_, ?_⟩
  · intro pp h
    unfold mergesettings
    rw [if_neg (by simp [h]), if_pos (by rfl)]
  · intro r pp hr hpp kv hmem
    unfold mergesettings at hmem
    rw [if_neg (by simp [hpp]), if_neg (by simp [hr])] at hmem
    simp only [Params.entries, List.mem_filter] at hmem
    exact Option.isSome_iff_ne_none.mp hmem.2
  · intro r pp hr hpp hndr hndpp k
    have hmerge : mergesettings (.dict r) (.dict pp) .params =
        .dict ((dictUpdate pp r).filter (fun kv => kv.2.isSome)) := by
      unfold mergesettings
      rw [if_neg (by simp [Params.isFalsy, hpp]), if_neg (by simp [Params.isFalsy, hr])]
      rfl
    rw [hmerge]
    show dictLookup k ((dictUpdate pp r).filter (fun kv => kv.2.isSome)) = _
    rw [dictLookup_filter_isSome k (dictUpdate pp r)
      (nodup_dictKeys_dictUpdate r pp hndpp)]
    rw [dictLookup_dictUpdate k r pp hndr]
    unfold claimMergedLookup
    cases dictLookup k r with
    | some v => cases v <;> rfl
    | none => cases dictLookup k pp with
      | some v => cases v <;> rfl
      | none => rfl

/-- Witness for C8 applying the merge-path law at the claim example. -/
theorem mergesettings_params_spec_witness :
    dictLookup "a" (mergesettings (.dict [("a", some 1)])
        (.dict [("a", some 2), ("b", some 3)]) .params).entries =
      claimMergedLookup [("a", some 1)] [("a", some 2), ("b", some 3)] "a" :=
  mergesettings_params_spec.2.2.2.2.2 [("a", some 1)] [("a", some 2), ("b", some 3)]
    (by decide) (by decide) (by decide) (by decide) "a"

end Saferequests
